import Mathlib

/-!
Verification of the teamcity-mcp gateway (Go) against its natural-language
specification.  The development shallowly embeds the MCP dispatcher
(internal/mcp/handler.go), the upstream TeamCity client (the client snapshot
that the dispatcher compiles against: the one providing FetchBuildLog,
SearchBuildConfigurations, calculateDuration and friends), and the TTL cache
(internal/cache/cache.go).

External effects are modelled as oracles:
* network I/O (`Upstream.request`) and JSON decoding of upstream response
  bodies (`Upstream.decode*`) are uninterpreted functions;
* the wall clock, `time.LoadLocation`, custom `time.Format` layouts and
  `regexp.Compile` results are fields of the `Ext` oracle;
* time is an integer number of seconds, and durations are exact integers
  (the Go code only ever compares and formats whole-second differences).

Every upstream HTTP request issued by a code path is collected in a
`List HttpCall`, so "no upstream call is made" is a provable statement.
-/

namespace TCMCP

/-! ## String helpers (strings.Contains, strings.TrimSpace, padding) -/

/-- Char-list prefix test: `charsPrefixOf p l` is true when `p` is an initial
segment of `l`.  Used to implement Go's `strings.Contains`. -/
def charsPrefixOf : List Char → List Char → Bool
  | [], _ => true
  | _ :: _, [] => false
  | a :: as, b :: bs => a == b && charsPrefixOf as bs

/-- Char-list substring test (the pattern is the first argument). -/
def charsContains (pat : List Char) : List Char → Bool
  | [] => pat.isEmpty
  | c :: t => charsPrefixOf pat (c :: t) || charsContains pat t

/-- Go `strings.Contains s sub`. -/
def strContains (s sub : String) : Bool :=
  charsContains sub.data s.data

/-- Go `strings.ToLower` (ASCII-faithful, which covers every configured
pattern); written over the char list so that it reduces in the kernel. -/
def strToLower (s : String) : String :=
  String.mk (s.data.map Char.toLower)

/-- Go `strings.TrimSpace line == ""`: the line consists of whitespace only. -/
def isBlank (s : String) : Bool :=
  s.data.all Char.isWhitespace

/-- Two-digit zero padding, for date rendering. -/
def pad2 (n : Nat) : String :=
  if n < 10 then "0" ++ toString n else toString n

/-- Four-digit zero padding, for date rendering. -/
def pad4 (n : Nat) : String :=
  if n < 10 then "000" ++ toString n
  else if n < 100 then "00" ++ toString n
  else if n < 1000 then "0" ++ toString n
  else toString n

/-! ## TeamCity timestamps (`20060102T150405-0700`)

`formatTeamCityDate` and `calculateDuration` in the client parse these with
Go's `time.Parse`, first with the `-0700` timezone suffix and, failing that,
without it.  We embed the parser at the level of civil fields plus an offset,
and convert to seconds since the Unix epoch with the standard
days-from-civil-date computation (which is what Go's `time` package computes
internally, at second granularity). -/

def digitVal (c : Char) : Option Nat :=
  if c.isDigit then some (c.toNat - 48) else none

def parseDigits (cs : List Char) : Option Nat :=
  cs.foldl
    (fun acc c =>
      match acc, digitVal c with
      | some n, some d => some (n * 10 + d)
      | _, _ => none)
    (some 0)

def isLeap (y : Int) : Bool :=
  (y % 4 == 0 && y % 100 != 0) || y % 400 == 0

def daysInMonth (y : Int) (m : Nat) : Nat :=
  match m with
  | 1 => 31
  | 2 => if isLeap y then 29 else 28
  | 3 => 31
  | 4 => 30
  | 5 => 31
  | 6 => 30
  | 7 => 31
  | 8 => 31
  | 9 => 30
  | 10 => 31
  | 11 => 30
  | 12 => 31
  | _ => 0

/-- Days from 1970-01-01 to the given civil date (proleptic Gregorian). -/
def daysFromCivil (y : Int) (m : Nat) (d : Nat) : Int :=
  let yAdj : Int := if m ≤ 2 then y - 1 else y
  let era : Int := (if 0 ≤ yAdj then yAdj else yAdj - 399) / 400
  let yoe : Int := yAdj - era * 400
  let mp : Nat := (m + 9) % 12
  let doy : Int := ((153 * mp + 2) / 5 + d - 1 : Nat)
  let doe : Int := yoe * 365 + yoe / 4 - yoe / 100 + doy
  era * 146097 + doe - 719468

/-- Parsed components of a TeamCity timestamp. -/
structure TCParts where
  year : Int
  month : Nat
  day : Nat
  hour : Nat
  minute : Nat
  second : Nat
  offsetSec : Int
  deriving Repr, DecidableEq

def validParts (p : TCParts) : Bool :=
  1 ≤ p.month && p.month ≤ 12 &&
  1 ≤ p.day && p.day ≤ daysInMonth p.year p.month &&
  p.hour ≤ 23 && p.minute ≤ 59 && p.second ≤ 59

/-- Assemble components, checking the ranges Go's `time.Parse` enforces. -/
def mkParts (y mo d h mi s : Nat) (off : Int) : Option TCParts :=
  let p : TCParts :=
    { year := (y : Int), month := mo, day := d, hour := h, minute := mi,
      second := s, offsetSec := off }
  if validParts p then some p else none

/-- Parse `YYYYMMDDTHHMMSS` with an optional `±HHMM` suffix, mirroring the
two `time.Parse` attempts (`20060102T150405-0700`, then `20060102T150405`).
A timestamp without a suffix is interpreted as UTC, as Go does. -/
def parseTCDateParts (str : String) : Option TCParts :=
  match str.data with
  | [y1, y2, y3, y4, mo1, mo2, d1, d2, 'T', h1, h2, mi1, mi2, s1, s2] => do
    let y ← parseDigits [y1, y2, y3, y4]
    let mo ← parseDigits [mo1, mo2]
    let d ← parseDigits [d1, d2]
    let h ← parseDigits [h1, h2]
    let mi ← parseDigits [mi1, mi2]
    let s ← parseDigits [s1, s2]
    mkParts y mo d h mi s 0
  | [y1, y2, y3, y4, mo1, mo2, d1, d2, 'T', h1, h2, mi1, mi2, s1, s2,
     sg, o1, o2, o3, o4] => do
    let y ← parseDigits [y1, y2, y3, y4]
    let mo ← parseDigits [mo1, mo2]
    let d ← parseDigits [d1, d2]
    let h ← parseDigits [h1, h2]
    let mi ← parseDigits [mi1, mi2]
    let s ← parseDigits [s1, s2]
    let oh ← parseDigits [o1, o2]
    let om ← parseDigits [o3, o4]
    let off : Int := (oh * 3600 + om * 60 : Nat)
    if sg == '+' then mkParts y mo d h mi s off
    else if sg == '-' then mkParts y mo d h mi s (-off)
    else none
  | _ => none

/-- Seconds since the Unix epoch of a parsed timestamp (UTC instant). -/
def partsEpochSeconds (p : TCParts) : Int :=
  daysFromCivil p.year p.month p.day * 86400 +
    ((p.hour * 3600 + p.minute * 60 + p.second : Nat) : Int) - p.offsetSec

/-- The instant a TeamCity timestamp denotes, in epoch seconds. -/
def parseTCDate (str : String) : Option Int :=
  (parseTCDateParts str).map partsEpochSeconds

/-- Client `formatTeamCityDate`: re-render a parsed timestamp as
`2006-01-02 15:04:05` (in its own offset), falling back to the input when
parsing fails.  The empty string maps to itself. -/
def formatTeamCityDate (tcDate : String) : String :=
  if tcDate = "" then ""
  else
    match parseTCDateParts tcDate with
    | none => tcDate
    | some p =>
      pad4 p.year.toNat ++ "-" ++ pad2 p.month ++ "-" ++ pad2 p.day ++ " " ++
        pad2 p.hour ++ ":" ++ pad2 p.minute ++ ":" ++ pad2 p.second

/-- Client `calculateDuration`: difference `end - start` of the two parsed
timestamps, rendered compactly (`Ns`, `Nm [Ns]`, `Nh [Nm]`); empty output for
unparsable inputs, empty inputs, or a negative difference. -/
def calculateDuration (startDate endDate : String) : String :=
  if startDate = "" ∨ endDate = "" then ""
  else
    match parseTCDate startDate, parseTCDate endDate with
    | some a, some b =>
      let dur : Int := b - a
      if dur < 0 then ""
      else if dur < 60 then toString dur ++ "s"
      else if dur < 3600 then
        let minutes := dur / 60
        let seconds := dur % 60
        if seconds = 0 then toString minutes ++ "m"
        else toString minutes ++ "m " ++ toString seconds ++ "s"
      else
        let hours := dur / 3600
        let minutes := (dur / 60) % 60
        if minutes = 0 then toString hours ++ "h"
        else toString hours ++ "h " ++ toString minutes ++ "m"
    | _, _ => ""

/-! ## Build-log filtering (client `applyBuildLogFilters` and the text path
of `FetchBuildLog`) -/

def errorPatterns : List String :=
  ["error", "fail", "exception", "fatal", "[e]", "[error]"]

def warningPatterns : List String :=
  ["warn", "warning", "[w]", "[warn]"]

/-- The per-line loop `for p in patterns: if strings.Contains(lower, p)`. -/
def matchesAny (lowerLine : String) (patterns : List String) : Bool :=
  patterns.any (fun p => strContains lowerLine p)

/-- Go `strings.Split(s, "\n")`, written as structural recursion over the
char list (the separator is the single newline character). -/
def splitCharsNL : List Char → List (List Char)
  | [] => [[]]
  | '\n' :: rest => [] :: splitCharsNL rest
  | c :: rest =>
    match splitCharsNL rest with
    | [] => [[c]]
    | h :: t => (c :: h) :: t

def splitLines (s : String) : List String :=
  (splitCharsNL s.data).map String.mk

/-- Client `applyBuildLogFilters`.  `rm` is the `regexp.Compile` outcome for
the pattern: `some f` is a compiled matcher, `none` the literal-substring
fallback.  An unrecognized non-empty severity leaves the patterns list empty,
so the final matching loop keeps nothing. -/
def applyBuildLogFilters (rm : Option (String → Bool))
    (lines : List String) (pattern severity : String) : List String :=
  let filtered := lines
  let filtered :=
    if pattern = "" then filtered
    else
      match rm with
      | some f => filtered.filter (fun line => f line)
      | none => filtered.filter (fun line => strContains line pattern)
  if severity = "" then filtered
  else
    let severityLower := (strToLower severity)
    if severityLower = "error" then
      filtered.filter (fun line => matchesAny (strToLower line) errorPatterns)
    else if severityLower = "warning" then
      filtered.filter (fun line => matchesAny (strToLower line) warningPatterns)
    else if severityLower = "info" then
      filtered.filter (fun line =>
        !matchesAny (strToLower line) (errorPatterns ++ warningPatterns) &&
          !isBlank line)
    else
      []

/-- Arguments of the `fetch_build_log` tool after JSON decoding (pointer
fields become `Option`). -/
structure FetchLogArgs where
  buildId : String
  plain : Option Bool
  archived : Option Bool
  dateFormat : String
  maxLines : Option Int
  filterPattern : String
  severity : String
  tailLines : Option Int
  deriving Repr

/-- The lines `FetchBuildLog` ends up showing: split on newlines, pattern and
severity filters, then the tail window, then the max-lines cap, exactly as
the Go function mutates `filteredLines`. -/
def fetchShownLines (rm : Option (String → Bool)) (a : FetchLogArgs)
    (logContent : String) : List String :=
  let lines := splitLines logContent
  let filteredLines := applyBuildLogFilters rm lines a.filterPattern a.severity
  let filteredLines :=
    match a.tailLines with
    | some tailCount =>
      if 0 < tailCount then
        if (tailCount : Int) < (filteredLines.length : Int) then
          filteredLines.drop (filteredLines.length - tailCount.toNat)
        else filteredLines
      else filteredLines
    | none => filteredLines
  match a.maxLines with
  | some maxL =>
    if 0 < maxL then
      if (maxL : Int) < (filteredLines.length : Int) then
        filteredLines.take maxL.toNat
      else filteredLines
    else filteredLines
  | none => filteredLines

/-- The plain-text result of `FetchBuildLog` once the log body has been
fetched: summary header followed by the remaining lines. -/
def fetchBuildLogRender (rm : Option (String → Bool)) (a : FetchLogArgs)
    (logContent : String) : String :=
  let lines := splitLines logContent
  let totalLines := lines.length
  let filteredLines := fetchShownLines rm a logContent
  let result := "Build log for build " ++ a.buildId ++ "\n" ++
    "Total lines: " ++ toString totalLines
  let result :=
    if a.filterPattern ≠ "" ∨ a.severity ≠ "" ∨ a.tailLines ≠ none then
      result ++ ", Filtered lines: " ++ toString filteredLines.length
    else result
  let result := result ++ ", Showing: " ++ toString filteredLines.length ++
    " lines\n\n"
  if 0 < filteredLines.length then
    result ++ String.intercalate "\n" filteredLines
  else
    result ++ "(No lines match the specified filters)"

/-! ### The pipeline as the spec words it, stage by stage -/

/-- Spec stage: split the fetched text into lines. -/
def specSplitLines (logContent : String) : List String :=
  splitLines logContent

/-- Spec stage: the pattern filter, if supplied, keeps only matching lines
(regex match, or literal substring when the pattern did not compile). -/
def specPatternStage (rm : Option (String → Bool)) (pattern : String)
    (ls : List String) : List String :=
  if pattern = "" then ls
  else
    match rm with
    | some f => ls.filter (fun line => f line)
    | none => ls.filter (fun line => strContains line pattern)

/-- Spec stage: the severity filter, where `info` keeps exactly the non-blank
lines matching neither an error pattern nor a warning pattern. -/
def specSeverityStage (severity : String) (ls : List String) : List String :=
  if severity = "" then ls
  else if (strToLower severity) = "error" then
    ls.filter (fun line => matchesAny (strToLower line) errorPatterns)
  else if (strToLower severity) = "warning" then
    ls.filter (fun line => matchesAny (strToLower line) warningPatterns)
  else
    ls.filter (fun line =>
      !matchesAny (strToLower line) errorPatterns &&
        !matchesAny (strToLower line) warningPatterns && !isBlank line)

/-- Spec stage: keep the last `tailLines` lines, if requested. -/
def specTailStage (tailLines : Option Int) (ls : List String) : List String :=
  match tailLines with
  | some n => if 0 < n then ls.drop (ls.length - n.toNat) else ls
  | none => ls

/-- Spec stage: keep the first `maxLines` lines, if requested. -/
def specMaxStage (maxLines : Option Int) (ls : List String) : List String :=
  match maxLines with
  | some n => if 0 < n then ls.take n.toNat else ls
  | none => ls

/-- Spec stage: join the remaining lines, prefixed by the summary of
total/filtered/shown counts. -/
def specJoinStage (a : FetchLogArgs) (totalLines : Nat)
    (shown : List String) : String :=
  let header := "Build log for build " ++ a.buildId ++ "\n" ++
    "Total lines: " ++ toString totalLines
  let header :=
    if a.filterPattern ≠ "" ∨ a.severity ≠ "" ∨ a.tailLines ≠ none then
      header ++ ", Filtered lines: " ++ toString shown.length
    else header
  let header := header ++ ", Showing: " ++ toString shown.length ++
    " lines\n\n"
  if 0 < shown.length then header ++ String.intercalate "\n" shown
  else header ++ "(No lines match the specified filters)"

/-- The full pipeline in the spec's order. -/
def specLogPipeline (rm : Option (String → Bool)) (a : FetchLogArgs)
    (logContent : String) : String :=
  let allLines := specSplitLines logContent
  let shown :=
    specMaxStage a.maxLines
      (specTailStage a.tailLines
        (specSeverityStage a.severity
          (specPatternStage rm a.filterPattern allLines)))
  specJoinStage a allLines.length shown

/-! ## JSON values and Go-style struct decoding

Tool arguments arrive as `json.RawMessage`.  We model a raw message as an
optional `JVal` (`none` = the field/params were absent, so the raw bytes are
empty and `json.Unmarshal` fails with "unexpected end of JSON input").
Decoding into a Go struct succeeds on `null` (leaving zero values), requires
an object otherwise, ignores unknown fields, leaves missing fields at their
zero values, and fails on type mismatches. -/

inductive JVal where
  | null
  | bool (b : Bool)
  | num (n : Int)
  | str (s : String)
  | arr (xs : List JVal)
  | obj (fields : List (String × JVal))

/-- Last-wins field lookup, as `encoding/json` resolves duplicate keys. -/
def lookupField (fields : List (String × JVal)) (k : String) : Option JVal :=
  fields.foldl (fun acc kv => if kv.1 = k then some kv.2 else acc) none

/-- A `string` struct field: zero value `""` when absent or null. -/
def strField (fields : List (String × JVal)) (k : String) :
    Except String String :=
  match lookupField fields k with
  | none => .ok ""
  | some .null => .ok ""
  | some (.str s) => .ok s
  | some _ => .error ("json: cannot unmarshal field " ++ k ++ " into string")

/-- A `bool` struct field: zero value `false` when absent or null. -/
def boolField (fields : List (String × JVal)) (k : String) :
    Except String Bool :=
  match lookupField fields k with
  | none => .ok false
  | some .null => .ok false
  | some (.bool b) => .ok b
  | some _ => .error ("json: cannot unmarshal field " ++ k ++ " into bool")

/-- A `*bool` struct field: `nil` when absent or null. -/
def optBoolField (fields : List (String × JVal)) (k : String) :
    Except String (Option Bool) :=
  match lookupField fields k with
  | none => .ok none
  | some .null => .ok none
  | some (.bool b) => .ok (some b)
  | some _ => .error ("json: cannot unmarshal field " ++ k ++ " into *bool")

/-- A `*int` struct field: `nil` when absent or null. -/
def optIntField (fields : List (String × JVal)) (k : String) :
    Except String (Option Int) :=
  match lookupField fields k with
  | none => .ok none
  | some .null => .ok none
  | some (.num n) => .ok (some n)
  | some _ => .error ("json: cannot unmarshal field " ++ k ++ " into *int")

/-- An `int` struct field: zero value `0` when absent or null. -/
def intField (fields : List (String × JVal)) (k : String) :
    Except String Int :=
  match lookupField fields k with
  | none => .ok 0
  | some .null => .ok 0
  | some (.num n) => .ok n
  | some _ => .error ("json: cannot unmarshal field " ++ k ++ " into int")

def asString (j : JVal) : Except String String :=
  match j with
  | .str s => .ok s
  | _ => .error "json: cannot unmarshal element into string"

def decodeStringList : List JVal → Except String (List String)
  | [] => .ok []
  | j :: rest => do
    let s ← asString j
    let tail ← decodeStringList rest
    .ok (s :: tail)

/-- A `[]string` struct field: `nil` (here `[]`) when absent or null. -/
def strListField (fields : List (String × JVal)) (k : String) :
    Except String (List String) :=
  match lookupField fields k with
  | none => .ok []
  | some .null => .ok []
  | some (.arr xs) => decodeStringList xs
  | some _ => .error ("json: cannot unmarshal field " ++ k ++ " into []string")

def decodeStringPairs : List (String × JVal) →
    Except String (List (String × String))
  | [] => .ok []
  | (k, j) :: rest => do
    let s ← asString j
    let tail ← decodeStringPairs rest
    .ok ((k, s) :: tail)

/-- A `map[string]string` struct field: `nil` (`none`) when absent or null,
so that `req.Properties != nil` is expressible. -/
def strMapField (fields : List (String × JVal)) (k : String) :
    Except String (Option (List (String × String))) :=
  match lookupField fields k with
  | none => .ok none
  | some .null => .ok none
  | some (.obj kvs) => (decodeStringPairs kvs).map some
  | some _ =>
    .error ("json: cannot unmarshal field " ++ k ++ " into map[string]string")

/-- Decode the outer shape of a struct-typed raw message. -/
def structFields (args : Option JVal) :
    Except String (List (String × JVal)) :=
  match args with
  | none => .error "unexpected end of JSON input"
  | some .null => .ok []
  | some (.obj fs) => .ok fs
  | some _ => .error "json: cannot unmarshal value into struct"

/-! ## Domain entities (typed reflections of the REST API) -/

structure Project where
  id : String
  name : String
  description : String
  webUrl : String

structure BuildType where
  id : String
  name : String
  description : String
  projectId : String
  project : Project

structure Build where
  id : Int
  number : String
  status : String
  state : String
  branchName : String
  buildTypeId : String
  startDate : String
  finishDate : String
  queuedDate : String
  buildType : BuildType

structure Agent where
  id : Int
  name : String
  connected : Bool
  enabled : Bool
  webUrl : String

structure Parameter where
  name : String
  value : String

/-- A build step; the Go field `Type` is called `stype` because `type` is a
keyword in Lean. -/
structure BuildStep where
  id : String
  name : String
  stype : String
  disabled : Bool

structure VCSRoot where
  id : String
  name : String
  vcsName : String

structure DetailedBuildType where
  base : BuildType
  parameters : List Parameter
  steps : List BuildStep
  vcsRoots : List VCSRoot
  enabled : Bool
  paused : Bool
  template : Bool

/-- A page of builds, `{count, build: [...]}`. -/
structure BuildsPage where
  count : Int
  builds : List Build

/-- The stubbed `GetResource` payload `{uri, type, content}`. -/
structure ClientResource where
  uri : String
  rtype : String
  content : String

/-! ## Oracles -/

/-- One upstream HTTP request: method, full path under the base URL
(REST calls carry the `/app/rest` prefix, the build-log download does not),
and the structured request body, if any. -/
structure HttpCall where
  method : String
  path : String
  body : Option JVal

/-- The upstream server and the JSON decoding of its response bodies,
uninterpreted.  `request` returns the response body, or the error string the
client produces for transport failures and HTTP statuses at or above 400. -/
structure Upstream where
  request : String → String → Option JVal → Except String String
  decodeProjects : String → Except String (List Project)
  decodeBuildTypesList : String → Except String (List BuildType)
  decodeBuildsList : String → Except String (List Build)
  decodeAgentsList : String → Except String (List Agent)
  decodeBuild : String → Except String Build
  decodeBuildsPage : String → Except String BuildsPage
  decodeBuildTypesPage : String → Except String (List BuildType)
  decodeDetailedBuildType : String → Except String DetailedBuildType
  decodeParameters : String → Except String (List Parameter)
  decodeSteps : String → Except String (List BuildStep)
  decodeVcsRoots : String → Except String (List VCSRoot)

/-- A rendered view of one instant on the wall clock. -/
structure ClockView where
  rfc3339 : String
  dateStr : String
  unixSec : Int
  locName : String

/-- Clocks, timezone database, custom layout formatting and regex
compilation: everything the handler takes from the outside world other than
the upstream server. -/
structure Ext where
  localClock : ClockView
  utcClock : ClockView
  loadLocation : String → Except String ClockView
  customFormat : ClockView → String → String
  regexCompile : String → Option (String → Bool)

/-- `makeRequest`: every REST call goes to `baseURL + "/app/rest" + endpoint`;
the call is recorded. -/
def makeRequest (u : Upstream) (method endpoint : String)
    (body : Option JVal) : Except String String × HttpCall :=
  (u.request method ("/app/rest" ++ endpoint) body,
   ⟨method, "/app/rest" ++ endpoint, body⟩)

/-- Go's `%t`. -/
def boolStr (b : Bool) : String := if b then "true" else "false"

/-- `strconv.Atoi`, minus the bit-width overflow check (build ids are small). -/
def atoi (s : String) : Option Int :=
  let core : List Char → Option Nat := fun ds =>
    if ds.isEmpty then none
    else if ds.all Char.isDigit then parseDigits ds else none
  match s.data with
  | '+' :: ds => (core ds).map (fun n => (n : Int))
  | '-' :: ds => (core ds).map (fun n => -(n : Int))
  | ds => (core ds).map (fun n => (n : Int))

/-- The error text of a failed `strconv.Atoi`. -/
def atoiErr (s : String) : String :=
  "strconv.Atoi: parsing \"" ++ s ++ "\": invalid syntax"

/-! ## Upstream client operations

Each operation mirrors one method of the TeamCity client, returning the text
(or error) it produces together with the list of HTTP calls it issued. -/

/-- `GetResource`: the "simplified implementation" returns a stub success
object echoing the URI; it performs no URI-prefix dispatch, issues no HTTP
request, and fails for no URI. -/
def clientGetResource (uri : String) :
    Except String ClientResource × List HttpCall :=
  (.ok { uri := uri, rtype := "resource",
         content := "Resource content for " ++ uri }, [])

/-- `{uri, name, description, mimeType}` descriptors for listing. -/
structure ResourceDesc where
  uri : String
  name : String
  description : String
  mimeType : String

def clientListProjects (u : Upstream) :
    Except String (List ResourceDesc) × List HttpCall :=
  let (resp, call) := makeRequest u "GET" "/projects" none
  match resp with
  | .error e => (.error ("failed to get projects: " ++ e), [call])
  | .ok body =>
    match u.decodeProjects body with
    | .error e => (.error ("failed to parse projects response: " ++ e), [call])
    | .ok ps =>
      (.ok (ps.map (fun p =>
        { uri := "teamcity://projects/" ++ p.id, name := p.name,
          description := p.description, mimeType := "application/json" })),
       [call])

def clientListBuildTypes (u : Upstream) :
    Except String (List ResourceDesc) × List HttpCall :=
  let (resp, call) := makeRequest u "GET" "/buildTypes" none
  match resp with
  | .error e => (.error ("failed to get build types: " ++ e), [call])
  | .ok body =>
    match u.decodeBuildTypesList body with
    | .error e =>
      (.error ("failed to parse build types response: " ++ e), [call])
    | .ok bts =>
      (.ok (bts.map (fun bt =>
        { uri := "teamcity://buildTypes/" ++ bt.id, name := bt.name,
          description := bt.description, mimeType := "application/json" })),
       [call])

def clientListBuilds (u : Upstream) :
    Except String (List ResourceDesc) × List HttpCall :=
  let (resp, call) := makeRequest u "GET" "/builds?locator=count:100" none
  match resp with
  | .error e => (.error ("failed to get builds: " ++ e), [call])
  | .ok body =>
    match u.decodeBuildsList body with
    | .error e => (.error ("failed to parse builds response: " ++ e), [call])
    | .ok bs =>
      (.ok (bs.map (fun b =>
        { uri := "teamcity://builds/" ++ toString b.id,
          name := "Build #" ++ b.number,
          description := "Status: " ++ b.status,
          mimeType := "application/json" })),
       [call])

def clientListAgents (u : Upstream) :
    Except String (List ResourceDesc) × List HttpCall :=
  let (resp, call) := makeRequest u "GET" "/agents" none
  match resp with
  | .error e => (.error ("failed to get agents: " ++ e), [call])
  | .ok body =>
    match u.decodeAgentsList body with
    | .error e => (.error ("failed to parse agents response: " ++ e), [call])
    | .ok as =>
      (.ok (as.map (fun a =>
        { uri := "teamcity://agents/" ++ toString a.id, name := a.name,
          description := "Connected: " ++ boolStr a.connected,
          mimeType := "application/json" })),
       [call])

/-- `TriggerBuild`: build the nested `buildQueue` request body and POST it. -/
def clientTriggerBuild (u : Upstream) (args : Option JVal) :
    Except String String × List HttpCall :=
  match structFields args with
  | .error e => (.error ("invalid arguments: " ++ e), [])
  | .ok fs =>
    match (do
        let buildTypeId ← strField fs "buildTypeId"
        let branchName ← strField fs "branchName"
        let properties ← strMapField fs "properties"
        let comment ← strField fs "comment"
        Except.ok (buildTypeId, branchName, properties, comment) :
        Except String (String × String ×
          Option (List (String × String)) × String)) with
    | .error e => (.error ("invalid arguments: " ++ e), [])
    | .ok (buildTypeId, branchName, properties, comment) =>
      let bodyFields :=
        [("buildType", JVal.obj [("id", JVal.str buildTypeId)])] ++
        (if branchName ≠ "" then [("branchName", JVal.str branchName)]
         else []) ++
        (if comment ≠ "" then
          [("comment", JVal.obj [("text", JVal.str comment)])] else []) ++
        (match properties with
         | some ps =>
           [("properties", JVal.obj [("property", JVal.arr (ps.map (fun kv =>
             JVal.obj [("name", JVal.str kv.1),
                       ("value", JVal.str kv.2)])))])]
         | none => [])
      let (resp, call) :=
        makeRequest u "POST" "/buildQueue" (some (JVal.obj bodyFields))
      match resp with
      | .error e => (.error ("failed to trigger build: " ++ e), [call])
      | .ok body =>
        match u.decodeBuild body with
        | .error e =>
          (.error ("failed to parse trigger response: " ++ e), [call])
        | .ok build =>
          (.ok ("Build #" ++ build.number ++ " queued successfully (ID: " ++
            toString build.id ++ ")"), [call])

/-- `CancelBuild`: parse the numeric build id, fetch the build for its
display number, then POST the cancel request. -/
def clientCancelBuild (u : Upstream) (args : Option JVal) :
    Except String String × List HttpCall :=
  match structFields args with
  | .error e => (.error ("invalid arguments: " ++ e), [])
  | .ok fs =>
    match (do
        let buildId ← strField fs "buildId"
        let comment ← strField fs "comment"
        Except.ok (buildId, comment) : Except String (String × String)) with
    | .error e => (.error ("invalid arguments: " ++ e), [])
    | .ok (buildIdStr, comment) =>
      match atoi buildIdStr with
      | none => (.error ("invalid build ID: " ++ atoiErr buildIdStr), [])
      | some buildId =>
        let (resp, call1) :=
          makeRequest u "GET" ("/builds/id:" ++ toString buildId) none
        match resp with
        | .error e => (.error ("build not found: " ++ e), [call1])
        | .ok body =>
          match u.decodeBuild body with
          | .error e => (.error ("failed to parse build: " ++ e), [call1])
          | .ok build =>
            let cancelBody := JVal.obj [("comment", JVal.str comment)]
            let (resp2, call2) := makeRequest u "POST"
              ("/builds/id:" ++ toString buildId ++ "/cancelRequest")
              (some cancelBody)
            match resp2 with
            | .error e =>
              (.error ("failed to cancel build: " ++ e), [call1, call2])
            | .ok _ =>
              (.ok ("Build #" ++ build.number ++ " cancelled successfully"),
               [call1, call2])

/-- `PinBuild`: fetch the build, then PUT (pin) or DELETE (unpin). -/
def clientPinBuild (u : Upstream) (args : Option JVal) :
    Except String String × List HttpCall :=
  match structFields args with
  | .error e => (.error ("invalid arguments: " ++ e), [])
  | .ok fs =>
    match (do
        let buildId ← strField fs "buildId"
        let pin ← boolField fs "pin"
        let comment ← strField fs "comment"
        Except.ok (buildId, pin, comment) :
        Except String (String × Bool × String)) with
    | .error e => (.error ("invalid arguments: " ++ e), [])
    | .ok (buildIdStr, pin, comment) =>
      match atoi buildIdStr with
      | none => (.error ("invalid build ID: " ++ atoiErr buildIdStr), [])
      | some buildId =>
        let (resp, call1) :=
          makeRequest u "GET" ("/builds/id:" ++ toString buildId) none
        match resp with
        | .error e => (.error ("build not found: " ++ e), [call1])
        | .ok body =>
          match u.decodeBuild body with
          | .error e => (.error ("failed to parse build: " ++ e), [call1])
          | .ok build =>
            let pinBody := JVal.obj [("comment", JVal.str comment)]
            if pin then
              let (resp2, call2) := makeRequest u "PUT"
                ("/builds/id:" ++ toString buildId ++ "/pin") (some pinBody)
              match resp2 with
              | .error e =>
                (.error ("failed to pin build: " ++ e), [call1, call2])
              | .ok _ =>
                (.ok ("Build #" ++ build.number ++ " pinned successfully"),
                 [call1, call2])
            else
              let (resp2, call2) := makeRequest u "DELETE"
                ("/builds/id:" ++ toString buildId ++ "/pin") none
              match resp2 with
              | .error e =>
                (.error ("failed to unpin build: " ++ e), [call1, call2])
              | .ok _ =>
                (.ok ("Build #" ++ build.number ++ " unpinned successfully"),
                 [call1, call2])

/-- The per-tag POST loop of `SetBuildTag`: the first failure aborts. -/
def addTagsLoop (u : Upstream) (buildId : Int) :
    List String → Except String Unit × List HttpCall
  | [] => (.ok (), [])
  | tag :: rest =>
    let tagBody := JVal.obj [("name", JVal.str tag)]
    let (resp, call) := makeRequest u "POST"
      ("/builds/id:" ++ toString buildId ++ "/tags") (some tagBody)
    match resp with
    | .error e => (.error ("failed to add tag " ++ tag ++ ": " ++ e), [call])
    | .ok _ =>
      let (r, calls) := addTagsLoop u buildId rest
      (r, call :: calls)

/-- The per-tag DELETE loop of `SetBuildTag`. -/
def removeTagsLoop (u : Upstream) (buildId : Int) :
    List String → Except String Unit × List HttpCall
  | [] => (.ok (), [])
  | tag :: rest =>
    let (resp, call) := makeRequest u "DELETE"
      ("/builds/id:" ++ toString buildId ++ "/tags/" ++ tag) none
    match resp with
    | .error e =>
      (.error ("failed to remove tag " ++ tag ++ ": " ++ e), [call])
    | .ok _ =>
      let (r, calls) := removeTagsLoop u buildId rest
      (r, call :: calls)

/-- `SetBuildTag`: fetch the build, add each tag, then remove each tag. -/
def clientSetBuildTag (u : Upstream) (args : Option JVal) :
    Except String String × List HttpCall :=
  match structFields args with
  | .error e => (.error ("invalid arguments: " ++ e), [])
  | .ok fs =>
    match (do
        let buildId ← strField fs "buildId"
        let tags ← strListField fs "tags"
        let removeTags ← strListField fs "removeTags"
        Except.ok (buildId, tags, removeTags) :
        Except String (String × List String × List String)) with
    | .error e => (.error ("invalid arguments: " ++ e), [])
    | .ok (buildIdStr, tags, removeTags) =>
      match atoi buildIdStr with
      | none => (.error ("invalid build ID: " ++ atoiErr buildIdStr), [])
      | some buildId =>
        let (resp, call1) :=
          makeRequest u "GET" ("/builds/id:" ++ toString buildId) none
        match resp with
        | .error e => (.error ("build not found: " ++ e), [call1])
        | .ok body =>
          match u.decodeBuild body with
          | .error e => (.error ("failed to parse build: " ++ e), [call1])
          | .ok build =>
            let (addRes, addCalls) := addTagsLoop u buildId tags
            match addRes with
            | .error e => (.error e, call1 :: addCalls)
            | .ok _ =>
              let (remRes, remCalls) := removeTagsLoop u buildId removeTags
              match remRes with
              | .error e => (.error e, call1 :: (addCalls ++ remCalls))
              | .ok _ =>
                (.ok ("Tags updated for build #" ++ build.number),
                 call1 :: (addCalls ++ remCalls))

/-- `DownloadArtifact`: the acknowledged stub, no HTTP call. -/
def clientDownloadArtifact (args : Option JVal) :
    Except String String × List HttpCall :=
  match structFields args with
  | .error e => (.error ("invalid arguments: " ++ e), [])
  | .ok fs =>
    match (do
        let buildId ← strField fs "buildId"
        let artifactPath ← strField fs "artifactPath"
        Except.ok (buildId, artifactPath) :
        Except String (String × String)) with
    | .error e => (.error ("invalid arguments: " ++ e), [])
    | .ok (buildId, artifactPath) =>
      (.ok ("Artifact " ++ artifactPath ++ " from build " ++ buildId ++
        " download initiated"), [])

/-! ### SearchBuilds -/

structure SearchBuildsArgs where
  buildTypeId : String
  status : String
  state : String
  branch : String
  agent : String
  user : String
  sinceBuild : String
  sinceDate : String
  untilDate : String
  tags : List String
  personal : Option Bool
  pinned : Option Bool
  count : Int

def parseSearchBuildsArgs (args : Option JVal) :
    Except String SearchBuildsArgs := do
  let fs ← structFields args
  let buildTypeId ← strField fs "buildTypeId"
  let status ← strField fs "status"
  let state ← strField fs "state"
  let branch ← strField fs "branch"
  let agent ← strField fs "agent"
  let user ← strField fs "user"
  let sinceBuild ← strField fs "sinceBuild"
  let sinceDate ← strField fs "sinceDate"
  let untilDate ← strField fs "untilDate"
  let tags ← strListField fs "tags"
  let personal ← optBoolField fs "personal"
  let pinned ← optBoolField fs "pinned"
  let count ← intField fs "count"
  .ok { buildTypeId := buildTypeId, status := status, state := state,
        branch := branch, agent := agent, user := user,
        sinceBuild := sinceBuild, sinceDate := sinceDate,
        untilDate := untilDate, tags := tags, personal := personal,
        pinned := pinned, count := count }

/-- The locator clauses, in the order `SearchBuilds` appends them. -/
def searchBuildsParams (r : SearchBuildsArgs) : List String :=
  (if r.buildTypeId ≠ "" then ["buildType:" ++ r.buildTypeId] else []) ++
  (if r.status ≠ "" then ["status:" ++ r.status] else []) ++
  (if r.state ≠ "" then ["state:" ++ r.state] else []) ++
  (if r.branch ≠ "" then ["branch:" ++ r.branch] else []) ++
  (if r.agent ≠ "" then ["agent:" ++ r.agent] else []) ++
  (if r.user ≠ "" then ["user:" ++ r.user] else []) ++
  (if r.sinceBuild ≠ "" then ["sinceBuild:" ++ r.sinceBuild] else []) ++
  (if r.sinceDate ≠ "" then ["sinceDate:" ++ r.sinceDate] else []) ++
  (if r.untilDate ≠ "" then ["untilDate:" ++ r.untilDate] else []) ++
  (match r.personal with
   | some b => ["personal:" ++ boolStr b]
   | none => []) ++
  (match r.pinned with
   | some b => ["pinned:" ++ boolStr b]
   | none => []) ++
  r.tags.map (fun tag => "tag:" ++ tag)

/-- One build's block in the `SearchBuilds` report, with the formatted dates
and the queue/build/total durations (suppressed when empty). -/
def renderSearchBuild (b : Build) : String :=
  "Build #" ++ b.number ++ " (ID: " ++ toString b.id ++ ")\n" ++
  "  Status: " ++ b.status ++ "\n" ++
  "  State: " ++ b.state ++ "\n" ++
  "  Build Type: " ++ b.buildType.name ++ " (" ++ b.buildTypeId ++ ")\n" ++
  (if b.branchName ≠ "" then "  Branch: " ++ b.branchName ++ "\n" else "") ++
  (if b.queuedDate ≠ "" then
    "  Queued: " ++ formatTeamCityDate b.queuedDate ++ "\n" else "") ++
  (if b.startDate ≠ "" then
    "  Started: " ++ formatTeamCityDate b.startDate ++ "\n" else "") ++
  (if b.finishDate ≠ "" then
    "  Finished: " ++ formatTeamCityDate b.finishDate ++ "\n" else "") ++
  (if b.queuedDate ≠ "" ∧ b.startDate ≠ "" then
    let queueTime := calculateDuration b.queuedDate b.startDate
    if queueTime ≠ "" then "  Queue Time: " ++ queueTime ++ "\n" else ""
   else "") ++
  (if b.startDate ≠ "" ∧ b.finishDate ≠ "" then
    let buildTime := calculateDuration b.startDate b.finishDate
    if buildTime ≠ "" then "  Build Time: " ++ buildTime ++ "\n" else ""
   else "") ++
  (if b.queuedDate ≠ "" ∧ b.finishDate ≠ "" then
    let totalTime := calculateDuration b.queuedDate b.finishDate
    if totalTime ≠ "" then "  Total Time: " ++ totalTime ++ "\n" else ""
   else "") ++
  "\n"

def clientSearchBuilds (u : Upstream) (args : Option JVal) :
    Except String String × List HttpCall :=
  match parseSearchBuildsArgs args with
  | .error e => (.error ("invalid arguments: " ++ e), [])
  | .ok r =>
    let params := searchBuildsParams r
    let count : Int := if r.count = 0 then 100 else r.count
    let locator :=
      params.foldl (fun acc p => acc ++ "," ++ p)
        ("count:" ++ toString count)
    let endpoint := "/builds?locator=" ++ locator
    let (resp, call) := makeRequest u "GET" endpoint none
    match resp with
    | .error e => (.error ("failed to search builds: " ++ e), [call])
    | .ok body =>
      match u.decodeBuildsPage body with
      | .error e =>
        (.error ("failed to parse builds response: " ++ e), [call])
      | .ok page =>
        let result := "Found " ++ toString page.count ++ " builds:\n\n" ++
          String.join (page.builds.map renderSearchBuild)
        if page.count = 0 then
          (.ok "No builds found matching the specified criteria.", [call])
        else (.ok result, [call])

/-! ### FetchBuildLog -/

def parseFetchLogArgs (args : Option JVal) : Except String FetchLogArgs := do
  let fs ← structFields args
  let buildId ← strField fs "buildId"
  let plain ← optBoolField fs "plain"
  let archived ← optBoolField fs "archived"
  let dateFormat ← strField fs "dateFormat"
  let maxLines ← optIntField fs "maxLines"
  let filterPattern ← strField fs "filterPattern"
  let severity ← strField fs "severity"
  let tailLines ← optIntField fs "tailLines"
  .ok { buildId := buildId, plain := plain, archived := archived,
        dateFormat := dateFormat, maxLines := maxLines,
        filterPattern := filterPattern, severity := severity,
        tailLines := tailLines }

/-- `FetchBuildLog`: validate, build the (non-REST) download URL, fetch, and
either report the archive byte count or run the text filter pipeline.
`rc` is the `regexp.Compile` oracle. -/
def clientFetchBuildLog (u : Upstream) (rc : String → Option (String → Bool))
    (args : Option JVal) : Except String String × List HttpCall :=
  match parseFetchLogArgs args with
  | .error e => (.error ("invalid arguments: " ++ e), [])
  | .ok a =>
    if a.buildId = "" then (.error "buildId is required", [])
    else if a.severity ≠ "" ∧
        ¬((strToLower a.severity) = "error" ∨ (strToLower a.severity) = "warning" ∨
          (strToLower a.severity) = "info") then
      (.error "invalid severity: must be 'error', 'warning', or 'info'", [])
    else
      let endpoint := "/downloadBuildLog.html?buildId=" ++ a.buildId
      let plain := match a.plain with | some b => b | none => true
      let ps :=
        (if plain then ["plain=true"] else []) ++
        (if a.archived = some true then ["archived=true"] else []) ++
        (if a.dateFormat ≠ "" then ["dateFormat=" ++ a.dateFormat] else [])
      let endpoint :=
        if ps ≠ [] then endpoint ++ "&" ++ String.intercalate "&" ps
        else endpoint
      let call : HttpCall := ⟨"GET", endpoint, none⟩
      match u.request "GET" endpoint none with
      | .error e => (.error e, [call])
      | .ok body =>
        if a.archived = some true then
          (.ok ("Build log for build " ++ a.buildId ++
            " downloaded as archive (" ++ toString body.length ++
            " bytes). Archive content is binary data."), [call])
        else
          (.ok (fetchBuildLogRender (rc a.filterPattern) a body), [call])

/-! ### SearchBuildConfigurations -/

structure SBCArgs where
  projectId : String
  name : String
  enabled : Option Bool
  paused : Option Bool
  template : Option Bool
  count : Int
  parameterName : String
  parameterValue : String
  stepType : String
  stepName : String
  vcsType : String
  includeDetails : Bool

def parseSBCArgs (args : Option JVal) : Except String SBCArgs := do
  let fs ← structFields args
  let projectId ← strField fs "projectId"
  let name ← strField fs "name"
  let enabled ← optBoolField fs "enabled"
  let paused ← optBoolField fs "paused"
  let template ← optBoolField fs "template"
  let count ← intField fs "count"
  let parameterName ← strField fs "parameterName"
  let parameterValue ← strField fs "parameterValue"
  let stepType ← strField fs "stepType"
  let stepName ← strField fs "stepName"
  let vcsType ← strField fs "vcsType"
  let includeDetails ← boolField fs "includeDetails"
  .ok { projectId := projectId, name := name, enabled := enabled,
        paused := paused, template := template, count := count,
        parameterName := parameterName, parameterValue := parameterValue,
        stepType := stepType, stepName := stepName, vcsType := vcsType,
        includeDetails := includeDetails }

/-- Phase 1: fetch configurations matching the cheap locator filters. -/
def getBasicBuildConfigurations (u : Upstream) (r : SBCArgs) :
    Except String (List BuildType) × List HttpCall :=
  let params :=
    (if r.projectId ≠ "" then ["project:" ++ r.projectId] else []) ++
    (if r.name ≠ "" then ["name:" ++ r.name] else []) ++
    (match r.enabled with
     | some b => ["enabled:" ++ boolStr b]
     | none => []) ++
    (match r.paused with
     | some b => ["paused:" ++ boolStr b]
     | none => []) ++
    (match r.template with
     | some b => ["template:" ++ boolStr b]
     | none => [])
  let count : Int := if r.count = 0 then 100 else r.count
  let locator :=
    params.foldl (fun acc p => acc ++ "," ++ p) ("count:" ++ toString count)
  let endpoint := "/buildTypes?locator=" ++ locator
  let (resp, call) := makeRequest u "GET" endpoint none
  match resp with
  | .error e =>
    (.error ("failed to search build configurations: " ++ e), [call])
  | .ok body =>
    match u.decodeBuildTypesPage body with
    | .error e =>
      (.error ("failed to parse build configurations response: " ++ e),
       [call])
    | .ok bts => (.ok bts, [call])

/-- Per-configuration detail fetch: main record plus parameters, steps and
VCS roots via three further calls; the three auxiliary fetches tolerate both
request and decode failures (logged and skipped in Go). -/
def getBuildConfigurationDetails (u : Upstream) (buildTypeId : String) :
    Except String DetailedBuildType × List HttpCall :=
  let (resp, call1) := makeRequest u "GET"
    ("/buildTypes/id:" ++ buildTypeId ++
      "?fields=id,name,projectName,projectId,href,webUrl,enabled,paused,template")
    none
  match resp with
  | .error e => (.error ("failed to get build type details: " ++ e), [call1])
  | .ok body =>
    match u.decodeDetailedBuildType body with
    | .error e =>
      (.error ("failed to parse build type details: " ++ e), [call1])
    | .ok bt0 =>
      let (paramResp, call2) := makeRequest u "GET"
        ("/buildTypes/id:" ++ buildTypeId ++ "/parameters") none
      let bt1 :=
        match paramResp with
        | .error _ => bt0
        | .ok pbody =>
          match u.decodeParameters pbody with
          | .ok props => { bt0 with parameters := props }
          | .error _ => bt0
      let (stepsResp, call3) := makeRequest u "GET"
        ("/buildTypes/id:" ++ buildTypeId ++ "/steps") none
      let bt2 :=
        match stepsResp with
        | .error _ => bt1
        | .ok sbody =>
          match u.decodeSteps sbody with
          | .ok steps => { bt1 with steps := steps }
          | .error _ => bt1
      let (vcsResp, call4) := makeRequest u "GET"
        ("/buildTypes/id:" ++ buildTypeId ++ "/vcs-root-entries") none
      let bt3 :=
        match vcsResp with
        | .error _ => bt2
        | .ok vbody =>
          match u.decodeVcsRoots vbody with
          | .ok roots => { bt2 with vcsRoots := bt2.vcsRoots ++ roots }
          | .error _ => bt2
      (.ok bt3, [call1, call2, call3, call4])

/-- A detailed filter is in play (the phase-2 trigger condition). -/
def sbcNeedsDetails (r : SBCArgs) : Bool :=
  r.includeDetails || r.parameterName != "" || r.parameterValue != "" ||
    r.stepType != "" || r.stepName != "" || r.vcsType != ""

/-- `matchesDetailedCriteria`: each supplied detailed filter must match at
least one element of the corresponding collection (case-insensitive
substring matching). -/
def matchesDetailedCriteria (cfg : DetailedBuildType) (r : SBCArgs) : Bool :=
  (if r.parameterName ≠ "" ∨ r.parameterValue ≠ "" then
    cfg.parameters.any (fun p =>
      (r.parameterName == "" ||
        strContains (strToLower p.name) (strToLower r.parameterName)) &&
      (r.parameterValue == "" ||
        strContains (strToLower p.value) (strToLower r.parameterValue)))
   else true) &&
  (if r.stepType ≠ "" ∨ r.stepName ≠ "" then
    cfg.steps.any (fun st =>
      (r.stepType == "" || strContains (strToLower st.stype) (strToLower r.stepType)) &&
      (r.stepName == "" || strContains (strToLower st.name) (strToLower r.stepName)))
   else true) &&
  (if r.vcsType ≠ "" then
    cfg.vcsRoots.any (fun v =>
      strContains (strToLower v.vcsName) (strToLower r.vcsType))
   else true)

/-- Phase 2 loop: fetch details when needed, apply the detailed criteria,
skip a configuration whose detail fetch failed. -/
def sbcProcess (u : Upstream) (r : SBCArgs) :
    List BuildType → List DetailedBuildType × List HttpCall
  | [] => ([], [])
  | cfg :: rest =>
    if sbcNeedsDetails r then
      let (det, calls) := getBuildConfigurationDetails u cfg.id
      let (tailCfgs, tailCalls) := sbcProcess u r rest
      match det with
      | .error _ => (tailCfgs, calls ++ tailCalls)
      | .ok detailed =>
        if matchesDetailedCriteria detailed r then
          (detailed :: tailCfgs, calls ++ tailCalls)
        else (tailCfgs, calls ++ tailCalls)
    else
      let (tailCfgs, tailCalls) := sbcProcess u r rest
      ({ base := cfg, parameters := [], steps := [], vcsRoots := [],
         enabled := false, paused := false, template := false } :: tailCfgs,
       tailCalls)

def formatParamsBlock (ps : List Parameter) : String :=
  if ps.isEmpty then ""
  else "  Parameters:\n" ++
    String.join (ps.map (fun p => "    " ++ p.name ++ " = " ++ p.value ++ "\n"))

def formatStepsLines : Nat → List BuildStep → String
  | _, [] => ""
  | i, st :: rest =>
    "    " ++ toString (i + 1) ++ ". " ++ st.name ++ " [" ++ st.stype ++ "]" ++
      (if st.disabled then " (disabled)" else "") ++ "\n" ++
      formatStepsLines (i + 1) rest

def formatStepsBlock (sts : List BuildStep) : String :=
  if sts.isEmpty then "" else "  Build Steps:\n" ++ formatStepsLines 0 sts

def formatVcsBlock (vs : List VCSRoot) : String :=
  if vs.isEmpty then ""
  else "  VCS Roots:\n" ++
    String.join (vs.map (fun v => "    " ++ v.name ++ " (" ++ v.vcsName ++ ")\n"))

def formatDetailedConfig (includeDetails : Bool)
    (cfg : DetailedBuildType) : String :=
  "Configuration: " ++ cfg.base.name ++ " (" ++ cfg.base.id ++ ")\n" ++
  "  Project: " ++ cfg.base.project.name ++ " (" ++ cfg.base.projectId ++
    ")\n" ++
  (if cfg.base.description ≠ "" then
    "  Description: " ++ cfg.base.description ++ "\n" else "") ++
  (if includeDetails then
    formatParamsBlock cfg.parameters ++ formatStepsBlock cfg.steps ++
      formatVcsBlock cfg.vcsRoots
   else "") ++
  "\n"

def formatDetailedSearchResults (cfgs : List DetailedBuildType)
    (includeDetails : Bool) : String :=
  if cfgs.isEmpty then
    "No build configurations found matching the specified criteria."
  else
    "Found " ++ toString cfgs.length ++ " build configurations:\n\n" ++
      String.join (cfgs.map (formatDetailedConfig includeDetails))

def clientSearchBuildConfigurations (u : Upstream) (args : Option JVal) :
    Except String String × List HttpCall :=
  match parseSBCArgs args with
  | .error e => (.error ("invalid arguments: " ++ e), [])
  | .ok r =>
    let (basic, calls1) := getBasicBuildConfigurations u r
    match basic with
    | .error e =>
      (.error ("failed to get basic configurations: " ++ e), calls1)
    | .ok configs =>
      let (matching, calls2) := sbcProcess u r configs
      (.ok (formatDetailedSearchResults matching r.includeDetails),
       calls1 ++ calls2)

/-! ## The MCP dispatcher (internal/mcp/handler.go) -/

/-- One tool's catalog entry as the claims need it: name, description and
the `required` list of its input schema (the per-property descriptions of
the JSON schemas are presentation-only and omitted). -/
structure ToolDesc where
  name : String
  description : String
  required : List String

/-- The static tool catalog returned by `tools/list`, in source order. -/
def toolCatalog : List ToolDesc :=
  [{ name := "trigger_build", description := "Trigger a new build",
     required := ["buildTypeId"] },
   { name := "cancel_build", description := "Cancel a running build",
     required := ["buildId"] },
   { name := "pin_build", description := "Pin or unpin a build",
     required := ["buildId", "pin"] },
   { name := "set_build_tag", description := "Add or remove build tags",
     required := ["buildId"] },
   { name := "download_artifact", description := "Download build artifacts",
     required := ["buildId", "artifactPath"] },
   { name := "search_builds",
     description := "Search for builds with various filters",
     required := [] },
   { name := "fetch_build_log",
     description :=
       "Fetch build log for a specific build with filtering options",
     required := ["buildId"] },
   { name := "search_build_configurations",
     description :=
       "Search for build configurations with comprehensive filters including basic filters, parameters, steps, and VCS roots",
     required := [] },
   { name := "get_current_time",
     description :=
       "Get the current server date and time - use this to get the real current date/time instead of assuming any training data dates",
     required := [] }]

/-- The descriptor of the runtime resource. -/
def runtimeResourceDesc : ResourceDesc :=
  { uri := "teamcity://runtime", name := "Runtime Information",
    description := "Current server date, time, and runtime information",
    mimeType := "application/json" }

/-- The static resource catalog returned by `resources/list` with an empty
URI (metadata only, no upstream calls). -/
def staticResourceList : List ResourceDesc :=
  [{ uri := "teamcity://projects", name := "Projects",
     description := "TeamCity projects", mimeType := "application/json" },
   { uri := "teamcity://buildTypes", name := "Build Types",
     description := "TeamCity build configurations",
     mimeType := "application/json" },
   { uri := "teamcity://builds", name := "Builds",
     description := "Recent TeamCity builds",
     mimeType := "application/json" },
   { uri := "teamcity://agents", name := "Agents",
     description := "TeamCity build agents",
     mimeType := "application/json" },
   runtimeResourceDesc]

/-- The `resources/read` payload of the locally handled runtime URI. -/
structure RuntimeInfo where
  currentTime : String
  currentDate : String
  currentTimestamp : Int
  timezone : String
  utcTime : String
  utcDate : String
  utcTimestamp : Int
  serverName : String
  serverVersion : String
  note : String

/-- `getRuntimeInfo`: computed entirely from the local clock. -/
def getRuntimeInfo (ext : Ext) : RuntimeInfo :=
  { currentTime := ext.localClock.rfc3339,
    currentDate := ext.localClock.dateStr,
    currentTimestamp := ext.localClock.unixSec,
    timezone := ext.localClock.locName,
    utcTime := ext.utcClock.rfc3339,
    utcDate := ext.utcClock.dateStr,
    utcTimestamp := ext.utcClock.unixSec,
    serverName := "teamcity-mcp", serverVersion := "1.0.0",
    note := "This is the REAL current date and time. Do not use any training data dates. Use this information for all time-based queries and operations." }

/-- The `initialize` result: protocol version, fixed identity, and the
clock-derived server metadata. -/
structure InitInfo where
  protocolVersion : String
  serverName : String
  serverVersion : String
  currentTime : String
  currentDate : String
  timezone : String

def initInfo (ext : Ext) : InitInfo :=
  { protocolVersion := "2024-11-05", serverName := "teamcity-mcp",
    serverVersion := "1.0.0", currentTime := ext.localClock.rfc3339,
    currentDate := ext.localClock.dateStr,
    timezone := ext.localClock.locName }

/-- What a `resources/read` success carries: the locally computed runtime
object, or whatever the upstream client's `GetResource` produced. -/
inductive ResourceContent where
  | runtime (info : RuntimeInfo)
  | client (r : ClientResource)

/-- The `result` member of a JSON-RPC success, by shape. -/
inductive ResultVal where
  | initResult (info : InitInfo)
  | resourceList (rs : List ResourceDesc)
  | resourceRead (c : ResourceContent)
  | toolList (ts : List ToolDesc)
  | toolText (text : String)
  | pingEmpty

/-- A JSON-RPC reply (both shapes carry `jsonrpc: "2.0"` on the wire). -/
inductive Response where
  | result (id : Option JVal) (res : ResultVal)
  | rpcError (id : Option JVal) (code : Int) (message : String)
      (data : Option String)

/-- A string field named `k` with a default, for `getCurrentTime`'s
pre-assigned defaults that `json.Unmarshal` only overwrites when the field
is present and non-null. -/
def strFieldOr (fields : List (String × JVal)) (k dflt : String) :
    Except String String :=
  match lookupField fields k with
  | none => .ok dflt
  | some .null => .ok dflt
  | some (.str s) => .ok s
  | some _ => .error ("json: cannot unmarshal field " ++ k ++ " into string")

def parseTimeArgs : Option JVal → Except String (String × String)
  | none => .ok ("rfc3339", "Local")
  | some .null => .ok ("rfc3339", "Local")
  | some (.obj fs) => do
    let fmt ← strFieldOr fs "format" "rfc3339"
    let tz ← strFieldOr fs "timezone" "Local"
    .ok (fmt, tz)
  | some _ => .error "json: cannot unmarshal value into struct"

/-- The handler-local `get_current_time` tool: pick the clock view for the
requested timezone, render it in the requested format.  No upstream access:
the only external inputs are the clock and timezone-database oracles. -/
def getCurrentTime (ext : Ext) (args : Option JVal) : Except String String :=
  match parseTimeArgs args with
  | .error e => .error ("invalid arguments: " ++ e)
  | .ok (fmt, tz) =>
    let picked : Except String ClockView :=
      if tz ≠ "Local" then
        if tz = "UTC" then .ok ext.utcClock
        else
          match ext.loadLocation tz with
          | .error e => .error ("invalid timezone '" ++ tz ++ "': " ++ e)
          | .ok v => .ok v
      else .ok ext.localClock
    match picked with
    | .error e => .error e
    | .ok v =>
      let rendered :=
        if fmt = "rfc3339" then v.rfc3339
        else if fmt = "date" then v.dateStr
        else if fmt = "timestamp" then toString v.unixSec
        else ext.customFormat v fmt
      .ok ("Current time: " ++ rendered ++ "\nTimezone: " ++ v.locName ++
        "\nNote: This is the REAL current date/time. Use this for all time-based operations instead of any training data dates.")

/-- `listResources`: the static catalog for an empty URI, otherwise the
per-collection list fetch, or a failure for unsupported URIs. -/
def listResources (u : Upstream) (uri : String) :
    Except String (List ResourceDesc) × List HttpCall :=
  if uri = "" then (.ok staticResourceList, [])
  else if uri = "teamcity://projects" then clientListProjects u
  else if uri = "teamcity://buildTypes" then clientListBuildTypes u
  else if uri = "teamcity://builds" then clientListBuilds u
  else if uri = "teamcity://agents" then clientListAgents u
  else if uri = "teamcity://runtime" then (.ok [runtimeResourceDesc], [])
  else (.error ("unsupported resource URI: " ++ uri), [])

/-- `readResource`: the runtime URI is handled locally, every other URI is
delegated to the upstream client's `GetResource`. -/
def readResource (u : Upstream) (ext : Ext) (uri : String) :
    Except String ResourceContent × List HttpCall :=
  if uri = "teamcity://runtime" then
    (.ok (.runtime (getRuntimeInfo ext)), [])
  else
    let (res, calls) := clientGetResource uri
    (res.map ResourceContent.client, calls)

/-- `callTool`: the dispatcher's tool switch. -/
def callTool (u : Upstream) (ext : Ext) (name : String)
    (args : Option JVal) : Except String String × List HttpCall :=
  if name = "trigger_build" then clientTriggerBuild u args
  else if name = "cancel_build" then clientCancelBuild u args
  else if name = "pin_build" then clientPinBuild u args
  else if name = "set_build_tag" then clientSetBuildTag u args
  else if name = "download_artifact" then clientDownloadArtifact args
  else if name = "search_builds" then clientSearchBuilds u args
  else if name = "fetch_build_log" then
    clientFetchBuildLog u ext.regexCompile args
  else if name = "search_build_configurations" then
    clientSearchBuildConfigurations u args
  else if name = "get_current_time" then (getCurrentTime ext args, [])
  else (.error ("unknown tool: " ++ name), [])

/-- Params of `resources/list`: only unmarshalled when present and not
literally `null`; the URI defaults to the zero value `""`. -/
def parseListParams : Option JVal → Except String String
  | none => .ok ""
  | some .null => .ok ""
  | some (.obj fs) => strField fs "uri"
  | some _ => .error "json: cannot unmarshal params"

/-- Params of `resources/read`: unconditionally unmarshalled. -/
def parseReadParams : Option JVal → Except String String
  | none => .error "unexpected end of JSON input"
  | some .null => .ok ""
  | some (.obj fs) => strField fs "uri"
  | some _ => .error "json: cannot unmarshal params"

/-- Params of `tools/call`: a name and the raw `arguments` member. -/
def parseCallParams : Option JVal →
    Except String (String × Option JVal)
  | none => .error "unexpected end of JSON input"
  | some .null => .ok ("", none)
  | some (.obj fs) => do
    let name ← strField fs "name"
    .ok (name, lookupField fs "arguments")
  | some _ => .error "json: cannot unmarshal params"

def handleResourcesList (u : Upstream) (id : Option JVal)
    (params : Option JVal) : Option Response × List HttpCall :=
  match parseListParams params with
  | .error _ => (some (.rpcError id (-32602) "Invalid params" none), [])
  | .ok uri =>
    let (res, calls) := listResources u uri
    match res with
    | .error e =>
      (some (.rpcError id (-32603) "Internal error" (some e)), calls)
    | .ok rs => (some (.result id (.resourceList rs)), calls)

def handleResourcesRead (u : Upstream) (ext : Ext) (id : Option JVal)
    (params : Option JVal) : Option Response × List HttpCall :=
  match parseReadParams params with
  | .error _ => (some (.rpcError id (-32602) "Invalid params" none), [])
  | .ok uri =>
    let (res, calls) := readResource u ext uri
    match res with
    | .error e =>
      (some (.rpcError id (-32603) "Internal error" (some e)), calls)
    | .ok content => (some (.result id (.resourceRead content)), calls)

def handleToolsCall (u : Upstream) (ext : Ext) (id : Option JVal)
    (params : Option JVal) : Option Response × List HttpCall :=
  match parseCallParams params with
  | .error _ => (some (.rpcError id (-32602) "Invalid params" none), [])
  | .ok (name, args) =>
    let (res, calls) := callTool u ext name args
    match res with
    | .error e =>
      (some (.rpcError id (-32603) "Tool execution failed" (some e)), calls)
    | .ok text => (some (.result id (.toolText text)), calls)

/-- The method switch of `HandleRequest`. -/
def routeRequest (u : Upstream) (ext : Ext) (id : Option JVal)
    (method : String) (params : Option JVal) :
    Option Response × List HttpCall :=
  if method = "initialize" then
    (some (.result id (.initResult (initInfo ext))), [])
  else if method = "initialized" then (none, [])
  else if method = "notifications/initialized" then (none, [])
  else if method = "notifications/cancelled" then (none, [])
  else if method = "resources/list" then handleResourcesList u id params
  else if method = "resources/read" then
    handleResourcesRead u ext id params
  else if method = "tools/list" then
    (some (.result id (.toolList toolCatalog)), [])
  else if method = "tools/call" then handleToolsCall u ext id params
  else if method = "ping" then (some (.result id .pingEmpty), [])
  else
    match id with
    | some i =>
      (some (.rpcError (some i) (-32601) "Method not found" none), [])
    | none => (none, [])

/-- An inbound transport message after the initial `json.Unmarshal`. -/
inductive InMessage where
  | malformed
  | parsed (jsonrpc : String) (id : Option JVal) (method : String)
      (params : Option JVal)

/-- What one `HandleRequest` call produced: the optional reply, the methods
recorded to the metrics sink (`RecordMCPRequest` labels), and the upstream
HTTP calls issued. -/
structure HandlerOut where
  reply : Option Response
  metricMethods : List String
  upstream : List HttpCall

/-- `HandleRequest`: parse errors and protocol-version rejections return
before the metrics `defer` is registered, so only messages that pass the
version check are timed (under their method name). -/
def handleRequest (u : Upstream) (ext : Ext) : InMessage → HandlerOut
  | .malformed =>
    { reply := some (.rpcError none (-32700) "Parse error" none),
      metricMethods := [], upstream := [] }
  | .parsed ver id method params =>
    if ver ≠ "2.0" then
      { reply := some (.rpcError id (-32600) "Invalid Request" none),
        metricMethods := [], upstream := [] }
    else
      let (r, calls) := routeRequest u ext id method params
      { reply := r, metricMethods := [method], upstream := calls }

/-! ## The TTL cache (internal/cache/cache.go) -/

structure CacheItem (α : Type) where
  value : α
  expiration : Int

/-- The cache state: a map (modelled as a duplicate-free-by-use association
list) plus the fixed TTL. -/
structure TTLCache (α : Type) where
  data : List (String × CacheItem α)
  ttl : Int

def cacheFind {α : Type} (c : TTLCache α) (key : String) :
    Option (String × CacheItem α) :=
  c.data.find? (fun e => e.1 == key)

/-- `Get`: a read-only lookup.  Misses on absence, misses on
`now.After(expiration)` (strictly after), hits otherwise; the cache state is
returned so that the absence of mutation is part of the statement. -/
def cacheGet {α : Type} (c : TTLCache α) (key : String) (now : Int) :
    (Option α × Bool) × TTLCache α :=
  match cacheFind c key with
  | none => ((none, false), c)
  | some e =>
    if e.2.expiration < now then ((none, false), c)
    else ((some e.2.value, true), c)

/-- `Set`: store with `expiration = now + ttl`, replacing any previous entry
for the key (Go map assignment). -/
def cacheSet {α : Type} (c : TTLCache α) (key : String) (v : α)
    (now : Int) : TTLCache α :=
  { c with data :=
      (key, { value := v, expiration := now + c.ttl }) ::
        c.data.filter (fun e => e.1 != key) }

def cacheDelete {α : Type} (c : TTLCache α) (key : String) : TTLCache α :=
  { c with data := c.data.filter (fun e => e.1 != key) }

def cacheClear {α : Type} (c : TTLCache α) : TTLCache α :=
  { c with data := [] }

/-- One tick of the cleanup goroutine: delete every entry with
`now.After(expiration)`. -/
def cacheSweep {α : Type} (c : TTLCache α) (now : Int) : TTLCache α :=
  { c with data := c.data.filter (fun e => !decide (e.2.expiration < now)) }

/-! ## Concrete oracle instances (used by closed counterexamples) -/

/-- An upstream oracle that refuses everything; the theorems using it never
reach it. -/
def noUpstream : Upstream :=
  { request := fun _ _ _ => .error "unreachable",
    decodeProjects := fun _ => .error "unreachable",
    decodeBuildTypesList := fun _ => .error "unreachable",
    decodeBuildsList := fun _ => .error "unreachable",
    decodeAgentsList := fun _ => .error "unreachable",
    decodeBuild := fun _ => .error "unreachable",
    decodeBuildsPage := fun _ => .error "unreachable",
    decodeBuildTypesPage := fun _ => .error "unreachable",
    decodeDetailedBuildType := fun _ => .error "unreachable",
    decodeParameters := fun _ => .error "unreachable",
    decodeSteps := fun _ => .error "unreachable",
    decodeVcsRoots := fun _ => .error "unreachable" }

def fixedClock : ClockView :=
  { rfc3339 := "2026-01-02T03:04:05Z", dateStr := "2026-01-02",
    unixSec := 1767323045, locName := "UTC" }

def fixedExt : Ext :=
  { localClock := fixedClock, utcClock := fixedClock,
    loadLocation := fun _ => .error "unknown time zone",
    customFormat := fun _ layout => layout,
    regexCompile := fun _ => none }

/-! ## Helper lemmas -/

theorem charsPrefixOf_append_self (p r : List Char) :
    charsPrefixOf p (p ++ r) = true := by
  induction p with
  | nil => rfl
  | cons c t ih => simp [charsPrefixOf, ih]

theorem charsContains_append_self (p r : List Char) :
    charsContains p (p ++ r) = true := by
  cases p with
  | nil =>
    cases r with
    | nil => rfl
    | cons c t => simp [charsContains, charsPrefixOf]
  | cons c t =>
    simp only [List.cons_append, charsContains]
    rw [show (c :: t.append r) = (c :: t) ++ r from rfl,
      charsPrefixOf_append_self]
    simp

theorem strContains_append_self (p rest : String) :
    strContains (p ++ rest) p = true := by
  unfold strContains
  rw [String.data_append]
  exact charsContains_append_self p.data rest.data

theorem any_eq_false_forall {α : Type} {l : List α} {f : α → Bool}
    (h : l.any f = false) : ∀ x ∈ l, f x = false := by
  intro x hx
  cases hfx : f x with
  | false => rfl
  | true => exact absurd (List.any_eq_true.mpr ⟨x, hx, hfx⟩) (by simp [h])

/-! ## Claim theorems -/

/-- C1 counterexample: for a URI whose prefix no collection recognizes, the
upstream client's `GetResource` returns a structured success value (the stub
object echoing the URI), not a "not supported" failure. -/
theorem getResource_unrecognized_prefix_is_success :
    clientGetResource "foo://bar" =
      (.ok { uri := "foo://bar", rtype := "resource",
             content := "Resource content for foo://bar" }, []) := rfl

/-- C1 amended: for every URI other than the locally handled runtime URI,
`readResource` delegates to the upstream client's `GetResource`, which does
not dispatch by URI prefix: it returns the stub success object echoing the
URI (and issues no HTTP call), for recognized and unrecognized prefixes
alike. -/
theorem readResource_stub_success (u : Upstream) (ext : Ext) (uri : String)
    (h : uri ≠ "teamcity://runtime") :
    readResource u ext uri =
      (.ok (.client
        { uri := uri, rtype := "resource",
          content := "Resource content for " ++ uri }), []) := by
  simp [readResource, clientGetResource, h, Except.map]

/-- C1 amended, witness at a concrete non-runtime URI. -/
theorem readResource_stub_success_witness :
    readResource noUpstream fixedExt "teamcity://projects/P1" =
      (.ok (.client
        { uri := "teamcity://projects/P1", rtype := "resource",
          content := "Resource content for teamcity://projects/P1" }), []) :=
  readResource_stub_success noUpstream fixedExt "teamcity://projects/P1"
    (by decide)

/-- C2: the dispatcher's tool switch has no case for `get_test_results`,
`get_test_failures`, `get_projects` or `get_build_types`: a `tools/call`
with any of those names is answered with the internal error
"unknown tool: ...", and no upstream call is made. -/
theorem callTool_unrouted_tools_unknown (u : Upstream) (ext : Ext)
    (id : Option JVal) :
    (handleRequest u ext (.parsed "2.0" id "tools/call"
        (some (.obj [("name", .str "get_test_results"),
          ("arguments", .obj [("buildId", .str "123")])]))) =
      { reply := some (.rpcError id (-32603) "Tool execution failed"
          (some "unknown tool: get_test_results")),
        metricMethods := ["tools/call"], upstream := [] }) ∧
    (handleRequest u ext (.parsed "2.0" id "tools/call"
        (some (.obj [("name", .str "get_test_failures"),
          ("arguments", .obj [("buildId", .str "123")])]))) =
      { reply := some (.rpcError id (-32603) "Tool execution failed"
          (some "unknown tool: get_test_failures")),
        metricMethods := ["tools/call"], upstream := [] }) ∧
    (handleRequest u ext (.parsed "2.0" id "tools/call"
        (some (.obj [("name", .str "get_projects"), ("arguments", .obj [])]))) =
      { reply := some (.rpcError id (-32603) "Tool execution failed"
          (some "unknown tool: get_projects")),
        metricMethods := ["tools/call"], upstream := [] }) ∧
    (handleRequest u ext (.parsed "2.0" id "tools/call"
        (some (.obj [("name", .str "get_build_types"),
          ("arguments", .obj [])]))) =
      { reply := some (.rpcError id (-32603) "Tool execution failed"
          (some "unknown tool: get_build_types")),
        metricMethods := ["tools/call"], upstream := [] }) :=
  ⟨rfl, rfl, rfl, rfl⟩

/-- The tool-level step of C4: `CancelBuild` rejects a non-numeric buildId
before issuing any request. -/
theorem clientCancelBuild_invalid_id (u : Upstream) (s : String)
    (h : atoi s = none) :
    clientCancelBuild u (some (.obj [("buildId", .str s)])) =
      (.error ("invalid build ID: " ++ atoiErr s), []) := by
  simp [clientCancelBuild, structFields, strField, lookupField, h,
    Except.instMonad, Except.bind, Except.pure]

/-- C4: a `tools/call` of `cancel_build` whose `buildId` does not parse as
an integer is answered with the -32603 error whose data carries the
"invalid build ID" message, and no upstream HTTP call is made. -/
theorem cancelBuild_invalid_id_no_upstream (u : Upstream) (ext : Ext)
    (id : Option JVal) (s : String) (h : atoi s = none) :
    handleRequest u ext (.parsed "2.0" id "tools/call"
        (some (.obj [("name", .str "cancel_build"),
          ("arguments", .obj [("buildId", .str s)])]))) =
      { reply := some (.rpcError id (-32603) "Tool execution failed"
          (some ("invalid build ID: " ++ atoiErr s))),
        metricMethods := ["tools/call"], upstream := [] } ∧
    strContains ("invalid build ID: " ++ atoiErr s) "invalid build ID" =
      true := by
  constructor
  · have hc := clientCancelBuild_invalid_id u s h
    simp [handleRequest, routeRequest, handleToolsCall, parseCallParams,
      callTool, strField, lookupField, hc, Except.instMonad, Except.bind,
      Except.pure]
  · have hlit : ("invalid build ID" : String) ++ ": " =
        "invalid build ID: " := by decide
    have hsplit : ("invalid build ID: " ++ atoiErr s) =
        "invalid build ID" ++ (": " ++ atoiErr s) := by
      rw [← String.append_assoc, hlit]
    rw [hsplit]
    exact strContains_append_self "invalid build ID" (": " ++ atoiErr s)

/-- C4 witness: `buildId = "abc"`. -/
theorem cancelBuild_invalid_id_no_upstream_witness :
    handleRequest noUpstream fixedExt (.parsed "2.0" (some (.num 1))
        "tools/call"
        (some (.obj [("name", .str "cancel_build"),
          ("arguments", .obj [("buildId", .str "abc")])]))) =
      { reply := some (.rpcError (some (.num 1)) (-32603)
          "Tool execution failed"
          (some ("invalid build ID: " ++ atoiErr "abc"))),
        metricMethods := ["tools/call"], upstream := [] } ∧
    strContains ("invalid build ID: " ++ atoiErr "abc") "invalid build ID" =
      true :=
  cancelBuild_invalid_id_no_upstream noUpstream fixedExt (some (.num 1))
    "abc" (by decide)

/-- The combined pattern-then-severity filtering of `applyBuildLogFilters`
coincides with the spec's two separate stages, for every severity the tool
admits (empty, or lowercasing to one of the three enum values). -/
theorem applyFilters_eq (rm : Option (String → Bool)) (lines : List String)
    (p s : String)
    (h : s = "" ∨ (strToLower s) = "error" ∨ (strToLower s) = "warning" ∨
      (strToLower s) = "info") :
    applyBuildLogFilters rm lines p s =
      specSeverityStage s (specPatternStage rm p lines) := by
  unfold applyBuildLogFilters specSeverityStage specPatternStage
  rcases h with h | h | h | h
  · simp [h]
  · have hne : s ≠ "" := by
      intro he
      rw [he] at h
      exact absurd h (by decide)
    simp [hne, h]
  · have hne : s ≠ "" := by
      intro he
      rw [he] at h
      exact absurd h (by decide)
    simp [hne, h]
  · have hne : s ≠ "" := by
      intro he
      rw [he] at h
      exact absurd h (by decide)
    simp [hne, h]
    refine List.filter_congr ?_
    intro a _
    simp [matchesAny, List.any_append, Bool.not_or, Bool.and_assoc]

/-- The inline tail-window step of `FetchBuildLog` equals the spec's
"keep the last N" stage (the saturating `drop` makes the length guard
redundant). -/
theorem tailStage_src_eq (tc : Int) (l : List String) :
    (if 0 < tc then
      if tc < (l.length : Int) then l.drop (l.length - tc.toNat) else l
     else l) = specTailStage (some tc) l := by
  simp only [specTailStage]
  split_ifs with h1 h2 <;> try rfl
  have hz : l.length - tc.toNat = 0 := by omega
  rw [hz, List.drop_zero]

/-- The inline max-lines step of `FetchBuildLog` equals the spec's
"keep the first N" stage. -/
theorem maxStage_src_eq (mx : Int) (l : List String) :
    (if 0 < mx then
      if mx < (l.length : Int) then l.take mx.toNat else l
     else l) = specMaxStage (some mx) l := by
  simp only [specMaxStage]
  split_ifs with h1 h2 <;> try rfl
  exact (List.take_of_length_le (by omega)).symm

/-- The shown lines of `FetchBuildLog` are exactly the spec's stage
composition. -/
theorem fetchShownLines_eq (rm : Option (String → Bool)) (a : FetchLogArgs)
    (log : String)
    (h : a.severity = "" ∨ strToLower a.severity = "error" ∨
      strToLower a.severity = "warning" ∨ strToLower a.severity = "info") :
    fetchShownLines rm a log =
      specMaxStage a.maxLines (specTailStage a.tailLines
        (specSeverityStage a.severity
          (specPatternStage rm a.filterPattern (splitLines log)))) := by
  simp only [fetchShownLines]
  rw [applyFilters_eq rm (splitLines log) a.filterPattern a.severity h]
  generalize specSeverityStage a.severity
    (specPatternStage rm a.filterPattern (splitLines log)) = mid
  cases a.tailLines with
  | none =>
    cases a.maxLines with
    | none => rfl
    | some mx => exact maxStage_src_eq mx mid
  | some tc =>
    cases a.maxLines with
    | none => exact tailStage_src_eq tc mid
    | some mx =>
      have hm := maxStage_src_eq mx (specTailStage (some tc) mid)
      conv at hm => lhs; rw [← tailStage_src_eq tc mid]
      exact hm

/-- C3: for every plain-text `fetch_build_log` result (the tool admits only
severities that lowercase to the enum, or none), the rendered output is the
spec's pipeline run in the spec's order: split, pattern filter, severity
filter, tail window, max-lines cap, then the summary-prefixed join. -/
theorem fetch_log_pipeline_order (rm : Option (String → Bool))
    (a : FetchLogArgs) (log : String)
    (h : a.severity = "" ∨ strToLower a.severity = "error" ∨
      strToLower a.severity = "warning" ∨ strToLower a.severity = "info") :
    fetchBuildLogRender rm a log = specLogPipeline rm a log := by
  simp only [fetchBuildLogRender, specLogPipeline, specSplitLines,
    specJoinStage]
  rw [fetchShownLines_eq rm a log h]

/-- C3 witness: a concrete five-line log with an info filter, a tail window
and a max cap. -/
theorem fetch_log_pipeline_order_witness :
    fetchBuildLogRender none
      { buildId := "7", plain := none, archived := none, dateFormat := "",
        maxLines := some 1, filterPattern := "", severity := "info",
        tailLines := some 2 }
      "ok line\nERROR: bad\n\nwarn: x\nall good" =
    specLogPipeline none
      { buildId := "7", plain := none, archived := none, dateFormat := "",
        maxLines := some 1, filterPattern := "", severity := "info",
        tailLines := some 2 }
      "ok line\nERROR: bad\n\nwarn: x\nall good" :=
  fetch_log_pipeline_order none
    { buildId := "7", plain := none, archived := none, dateFormat := "",
      maxLines := some 1, filterPattern := "", severity := "info",
      tailLines := some 2 }
    "ok line\nERROR: bad\n\nwarn: x\nall good" (by decide)

/-- Membership in the tail window implies membership in its input. -/
theorem mem_of_tailStage {line : String} {tc : Int} {l : List String}
    (h : line ∈ (if 0 < tc then
      if tc < (l.length : Int) then l.drop (l.length - tc.toNat) else l
     else l)) : line ∈ l := by
  split at h
  · split at h
    · exact List.mem_of_mem_drop h
    · exact h
  · exact h

/-- Membership in the max-lines cap implies membership in its input. -/
theorem mem_of_maxStage {line : String} {mx : Int} {l : List String}
    (h : line ∈ (if 0 < mx then
      if mx < (l.length : Int) then l.take mx.toNat else l
     else l)) : line ∈ l := by
  split at h
  · split at h
    · exact List.mem_of_mem_take h
    · exact h
  · exact h

/-- Every shown line survived the pattern-and-severity filter. -/
theorem mem_fetchShownLines {rm : Option (String → Bool)}
    {a : FetchLogArgs} {log line : String}
    (h : line ∈ fetchShownLines rm a log) :
    line ∈ applyBuildLogFilters rm (splitLines log) a.filterPattern
      a.severity := by
  revert h
  unfold fetchShownLines
  cases a.tailLines with
  | none =>
    cases a.maxLines with
    | none => exact fun h => h
    | some mx => exact fun h => mem_of_maxStage h
  | some tc =>
    cases a.maxLines with
    | none => exact fun h => mem_of_tailStage h
    | some mx => exact fun h => mem_of_tailStage (mem_of_maxStage h)

/-- C6: with severity `info`, no line a `fetch_build_log` call shows
contains (case-insensitively) any configured error or warning substring,
and no shown line is blank. -/
theorem info_log_lines_clean (rm : Option (String → Bool))
    (a : FetchLogArgs) (log line : String) (hsev : a.severity = "info")
    (hmem : line ∈ fetchShownLines rm a log) :
    (∀ p ∈ errorPatterns ++ warningPatterns,
      strContains (strToLower line) p = false) ∧ isBlank line = false := by
  have h1 := mem_fetchShownLines hmem
  rw [hsev] at h1
  rw [applyFilters_eq rm (splitLines log) a.filterPattern "info"
    (Or.inr (Or.inr (Or.inr (by decide))))] at h1
  rw [show specSeverityStage "info"
        (specPatternStage rm a.filterPattern (splitLines log)) =
      (specPatternStage rm a.filterPattern (splitLines log)).filter
        (fun line =>
          !matchesAny (strToLower line) errorPatterns &&
            !matchesAny (strToLower line) warningPatterns &&
              !isBlank line) from by
    unfold specSeverityStage
    rw [if_neg (by decide), if_neg (by decide), if_neg (by decide)]] at h1
  have h2 := (List.mem_filter.mp h1).2
  simp only [Bool.and_eq_true, Bool.not_eq_true'] at h2
  obtain ⟨⟨he, hw⟩, hb⟩ := h2
  refine ⟨?_, hb⟩
  intro p hp
  simp only [matchesAny] at he hw
  rcases List.mem_append.mp hp with hp | hp
  · exact any_eq_false_forall he p hp
  · exact any_eq_false_forall hw p hp

/-- C6 witness: the line "ok line" shown from a concrete log under the info
severity. -/
theorem info_log_lines_clean_witness :
    (∀ p ∈ errorPatterns ++ warningPatterns,
      strContains (strToLower "ok line") p = false) ∧
    isBlank "ok line" = false :=
  info_log_lines_clean none
    { buildId := "7", plain := none, archived := none, dateFormat := "",
      maxLines := none, filterPattern := "", severity := "info",
      tailLines := none }
    "ok line\nERROR: bad\n\nwarn: x\nall good" "ok line" rfl (by decide)

/-- C5: a `Set` followed by a `Get` before the TTL has elapsed returns the
stored value with `found = true`; a `Get` more than one TTL after the `Set`
reports `found = false`. -/
theorem cache_set_then_get {α : Type} (c : TTLCache α) (k : String) (v : α)
    (tset tget : Int) :
    (tget < tset + c.ttl →
      (cacheGet (cacheSet c k v tset) k tget).1 = (some v, true)) ∧
    (tset + c.ttl < tget →
      (cacheGet (cacheSet c k v tset) k tget).1 = (none, false)) := by
  constructor <;> intro h
  · have hx : ¬(tset + c.ttl < tget) := by omega
    simp [cacheGet, cacheSet, cacheFind, List.find?, hx]
  · simp [cacheGet, cacheSet, cacheFind, List.find?, h]

/-- C5 witness: a 60-second-TTL cache, `Get` at 1 second and at 61 seconds
after the `Set`. -/
theorem cache_set_then_get_witness :
    (cacheGet (cacheSet (⟨[], 60⟩ : TTLCache Nat) "k" 5 0) "k" 1).1 =
      (some 5, true) ∧
    (cacheGet (cacheSet (⟨[], 60⟩ : TTLCache Nat) "k" 5 0) "k" 61).1 =
      (none, false) :=
  ⟨(cache_set_then_get ⟨[], 60⟩ "k" 5 0 1).1 (by decide),
   (cache_set_then_get ⟨[], 60⟩ "k" 5 0 61).2 (by decide)⟩

/-- C7: the two example evaluations of `calculateDuration`, and the general
fact that whenever both endpoints parse and the end is strictly before the
start, the duration is suppressed (empty string). -/
theorem calculateDuration_examples_and_negative :
    calculateDuration "20240101T100000+0000" "20240101T100130+0000" =
      "1m 30s" ∧
    calculateDuration "20240101T100000+0000" "20240101T100000+0000" = "0s" ∧
    ∀ (s e : String) (a b : Int), parseTCDate s = some a →
      parseTCDate e = some b → b < a → calculateDuration s e = "" := by
  refine ⟨by decide, by decide, ?_⟩
  intro s e a b hs he hlt
  unfold calculateDuration
  by_cases hse : s = "" ∨ e = ""
  · simp [hse]
  · rw [if_neg hse, hs, he]
    have hneg : b - a < 0 := by omega
    simp [hneg]

/-- C7 witness for the universally quantified part, with the two example
timestamps swapped. -/
theorem calculateDuration_examples_and_negative_witness :
    calculateDuration "20240101T100130+0000" "20240101T100000+0000" = "" :=
  calculateDuration_examples_and_negative.2.2 "20240101T100130+0000"
    "20240101T100000+0000" 1704103290 1704103200 (by decide) (by decide)
    (by decide)

/-- C8 counterexample: a well-formed request whose `jsonrpc` version is not
"2.0" is handled to completion (it is answered with the -32600 error), yet
no method-labeled duration metric is recorded, because the metrics `defer`
is only registered after the version check. -/
theorem version_mismatch_not_timed :
    handleRequest noUpstream fixedExt
        (.parsed "1.0" (some (.str "1")) "tools/list" none) =
      { reply := some (.rpcError (some (.str "1")) (-32600)
          "Invalid Request" none),
        metricMethods := [], upstream := [] } := rfl

/-- C8 amended: a duration metric labeled by the method is recorded exactly
for the messages that parse and pass the protocol-version check; malformed
messages and version-mismatch rejections record no method-labeled metric. -/
theorem metrics_timed_iff_version_ok (u : Upstream) (ext : Ext)
    (ver : String) (id : Option JVal) (m : String) (p : Option JVal) :
    (handleRequest u ext .malformed).metricMethods = [] ∧
    (ver ≠ "2.0" →
      (handleRequest u ext (.parsed ver id m p)).metricMethods = []) ∧
    (ver = "2.0" →
      (handleRequest u ext (.parsed ver id m p)).metricMethods = [m]) := by
  refine ⟨rfl, fun h => ?_, fun h => ?_⟩
  · simp [handleRequest, h]
  · subst h
    rfl

/-- C8 amended, witness: a `ping` under version "1.0" is not timed, the same
`ping` under "2.0" is timed under its method. -/
theorem metrics_timed_iff_version_ok_witness :
    (handleRequest noUpstream fixedExt
      (.parsed "1.0" none "ping" none)).metricMethods = [] ∧
    (handleRequest noUpstream fixedExt
      (.parsed "2.0" none "ping" none)).metricMethods = ["ping"] :=
  ⟨(metrics_timed_iff_version_ok noUpstream fixedExt "1.0" none "ping"
      none).2.1 (by decide),
   (metrics_timed_iff_version_ok noUpstream fixedExt "2.0" none "ping"
      none).2.2 rfl⟩

/-- C9: the runtime resource read and the `get_current_time` tool call are
answered entirely locally (from the clock oracles, with zero upstream HTTP
calls), and both endpoints are advertised by the static catalogs. -/
theorem local_endpoints_no_upstream (u : Upstream) (ext : Ext)
    (id : Option JVal) :
    (handleRequest u ext (.parsed "2.0" id "resources/read"
        (some (.obj [("uri", .str "teamcity://runtime")]))) =
      { reply := some (.result id (.resourceRead
          (.runtime (getRuntimeInfo ext)))),
        metricMethods := ["resources/read"], upstream := [] }) ∧
    (handleRequest u ext (.parsed "2.0" id "tools/call"
        (some (.obj [("name", .str "get_current_time")]))) =
      { reply := some (.result id (.toolText
          ("Current time: " ++ ext.localClock.rfc3339 ++ "\nTimezone: " ++
            ext.localClock.locName ++
            "\nNote: This is the REAL current date/time. Use this for all time-based operations instead of any training data dates."))),
        metricMethods := ["tools/call"], upstream := [] }) ∧
    (toolCatalog.map ToolDesc.name).contains "get_current_time" = true ∧
    (staticResourceList.map ResourceDesc.uri).contains "teamcity://runtime" =
      true :=
  ⟨rfl, rfl, rfl, rfl⟩

/-- C10: `Get` never mutates the stored entries; a `Get` that finds an
expired entry reports `found = false` while the entry stays in the map; the
entry disappears on `Delete` and on the next cleanup sweep. -/
theorem cache_get_pure_and_sweep {α : Type} (c : TTLCache α) (k : String)
    (now : Int) (v : α) (exp : Int) :
    ((cacheGet c k now).2 = c) ∧
    (cacheFind c k = some (k, ⟨v, exp⟩) → exp < now →
      cacheGet c k now = ((none, false), c) ∧
      (k, CacheItem.mk v exp) ∈ c.data ∧
      (k, CacheItem.mk v exp) ∉ (cacheSweep c now).data) ∧
    cacheFind (cacheDelete c k) k = none := by
  refine ⟨?_, fun hfind hexp => ⟨?_, ?_, ?_⟩, ?_⟩
  · unfold cacheGet
    cases cacheFind c k with
    | none => rfl
    | some e =>
      by_cases he : e.2.expiration < now <;> simp [he]
  · simp [cacheGet, hfind, hexp]
  · exact List.mem_of_find?_eq_some hfind
  · intro hmem
    have := (List.mem_filter.mp hmem).2
    simp [hexp] at this
  · unfold cacheFind cacheDelete
    rw [List.find?_eq_none]
    intro x hx
    have := (List.mem_filter.mp hx).2
    simpa using this

/-- C10 witness: a one-entry cache whose entry expired at 10, observed at
20. -/
theorem cache_get_pure_and_sweep_witness :
    cacheGet (⟨[("k", ⟨3, 10⟩)], 60⟩ : TTLCache Nat) "k" 20 =
      ((none, false), (⟨[("k", ⟨3, 10⟩)], 60⟩ : TTLCache Nat)) ∧
    ("k", CacheItem.mk 3 10) ∈
      (⟨[("k", ⟨3, 10⟩)], 60⟩ : TTLCache Nat).data ∧
    ("k", CacheItem.mk 3 10) ∉
      (cacheSweep (⟨[("k", ⟨3, 10⟩)], 60⟩ : TTLCache Nat) 20).data :=
  (cache_get_pure_and_sweep (⟨[("k", ⟨3, 10⟩)], 60⟩ : TTLCache Nat) "k" 20
    3 10).2.1 (by rfl) (by decide)

end TCMCP
